import Mathlib

/-
Verification of the fslock package (cross-process file locks).

The development shallowly embeds the two platform implementations:
 - src/unnamed/part_000 : the POSIX-family implementation (flock syscall),
 - src/fslock_windows.go : the Windows implementation (LockFileEx + event wait).

Machine integers are modelled as Nat/Int with explicit reduction modulo 2^32
where the code converts to uint32.  Syscalls are modelled by a small explicit
world state (file descriptors, close-on-exec flags, the flock holder) plus
fault-injection fields for the error paths; Go errors are a finite inductive
compared by constructor, mirroring Go's identity comparison of the sentinel
errors (ErrLocked, ErrTimeout, context.DeadlineExceeded, context.Canceled).
-/

namespace Fslock

/-- OS error numbers returned by syscalls.  Only the codes the claims need are
named; every other errno is `other n`.  Distinct constructors model distinct
errno values (Go compares them with `==`). -/
inductive Errno where
  | EWOULDBLOCK
  | EACCES
  | ENOENT
  | EBADF
  | EINVAL
  | other (n : Nat)
deriving DecidableEq, Repr

/-- Go error values that appear in the package, compared by identity as Go
does.  `errno e` wraps a syscall error; `errLocked` and `errTimeout` are the
package sentinels; `deadlineExceeded` and `canceled` are the two possible
results of `ctx.Err()`; `errInvalidHandle` is the Windows error returned by
`CloseHandle` on an invalid handle. -/
inductive GoError where
  | errno (e : Errno)
  | errLocked
  | errTimeout
  | deadlineExceeded
  | canceled
  | errInvalidHandle
deriving DecidableEq, Repr

/-- World state for the POSIX-family model: a single lock file (the Lock's
path), the pool of open descriptors of this process, their close-on-exec
flags, which descriptor (if any) of this process holds the flock, whether a
different process holds it, fault-injection outcomes for `open`/`flock`, and a
counter of how many times the opener has been invoked. -/
structure World where
  nextFd : Nat := 3
  openFds : List Nat := []
  cloexec : List Nat := []
  flockHolder : Option Nat := none
  heldElsewhere : Bool := false
  openErr : Option Errno := none
  flockErr : Option Errno := none
  openCalls : Nat := 0
deriving DecidableEq, Repr

def World.init : World := {}

/-- syscall.Open(path, O_CREAT|O_RDWR, 0600): allocates a fresh descriptor
unless the injected `openErr` fires.  Every call is counted in `openCalls`. -/
def sysOpen (w : World) : Except Errno Nat × World :=
  match w.openErr with
  | some e => (Except.error e, { w with openCalls := w.openCalls + 1 })
  | none =>
      (Except.ok w.nextFd,
       { w with nextFd := w.nextFd + 1,
                openFds := w.nextFd :: w.openFds,
                openCalls := w.openCalls + 1 })

/-- An exclusive flock on the file would block for `fd`: some other process
holds it, or another descriptor of this process does. -/
def contendedFor (w : World) (fd : Nat) : Bool :=
  w.heldElsewhere ||
    (match w.flockHolder with
     | some g => decide (g ≠ fd)
     | none => false)

/-- syscall.Flock(fd, LOCK_EX|LOCK_NB): EWOULDBLOCK if the lock is held
elsewhere, otherwise the injected `flockErr`, otherwise the lock is taken. -/
def sysFlockNB (w : World) (fd : Nat) : Except Errno World :=
  if contendedFor w fd then Except.error Errno.EWOULDBLOCK
  else
    match w.flockErr with
    | some e => Except.error e
    | none => Except.ok { w with flockHolder := some fd }

/-- syscall.Flock(fd, LOCK_EX), the blocking form, modelled at the instant the
call returns: the caller then holds the lock (or got an injected error).  The
sequential model uses this only where the call does return; a contended
blocking attempt racing a cancellation signal is modelled separately by
`lockWithContext` below. -/
def sysFlockEx (w : World) (fd : Nat) : Except Errno World :=
  match w.flockErr with
  | some e => Except.error e
  | none => Except.ok { w with flockHolder := some fd }

/-- syscall.Close(fd): closes an open descriptor, dropping its close-on-exec
flag and releasing the flock if that descriptor held it; EBADF otherwise. -/
def sysClose (w : World) (fd : Nat) : Except Errno World :=
  if fd ∈ w.openFds then
    Except.ok
      { w with openFds := w.openFds.erase fd,
               cloexec := w.cloexec.erase fd,
               flockHolder := if w.flockHolder = some fd then none else w.flockHolder }
  else Except.error Errno.EBADF

/-- syscall.CloseOnExec(fd): sets the FD_CLOEXEC flag. -/
def sysCloseOnExec (w : World) (fd : Nat) : World :=
  if fd ∈ w.cloexec then w else { w with cloexec := fd :: w.cloexec }

/-- The Lock struct of part_000 (lines 17-20): a path and a descriptor, with
-1 as the "never opened" sentinel. -/
structure Lock where
  filename : String
  fd : Int
deriving DecidableEq, Repr

/-- New (part_000 lines 23-25). -/
def Lock.new (filename : String) : Lock := ⟨filename, -1⟩

/-- Result of one synchronous method call: the returned error (none = nil),
the updated receiver, and the updated world. -/
structure StepRes where
  err : Option GoError
  lock : Lock
  world : World
deriving DecidableEq, Repr

/-- (*Lock).open (part_000 lines 53-60): open the backing file; on success
record the descriptor in l.fd, on failure leave l.fd untouched. -/
def Lock.openFile (l : Lock) (w : World) : StepRes :=
  match sysOpen w with
  | (Except.error e, w1) => ⟨some (GoError.errno e), l, w1⟩
  | (Except.ok fd, w1) => ⟨none, { l with fd := Int.ofNat fd }, w1⟩

/-- (*Lock).Lock (part_000 lines 28-33): open, then blocking flock. -/
def Lock.lock (l : Lock) (w : World) : StepRes :=
  match l.openFile w with
  | ⟨some e, l1, w1⟩ => ⟨some e, l1, w1⟩
  | ⟨none, l1, w1⟩ =>
      match sysFlockEx w1 l1.fd.toNat with
      | Except.error e => ⟨some (GoError.errno e), l1, w1⟩
      | Except.ok w2 => ⟨none, l1, w2⟩

/-- The body of TryLock after the open step succeeded (part_000 lines 41-50):
non-blocking flock; on any flock error close the descriptor (the Close result
is discarded by the code), on success set close-on-exec; EWOULDBLOCK is
reported as ErrLocked. -/
def Lock.tryLockPostOpen (l1 : Lock) (w1 : World) : StepRes :=
  let fd := l1.fd.toNat
  match sysFlockNB w1 fd with
  | Except.error e =>
      let w2 := match sysClose w1 fd with
                | Except.ok wc => wc
                | Except.error _ => w1
      if e = Errno.EWOULDBLOCK then ⟨some GoError.errLocked, l1, w2⟩
      else ⟨some (GoError.errno e), l1, w2⟩
  | Except.ok w2 => ⟨none, l1, sysCloseOnExec w2 fd⟩

/-- (*Lock).TryLock (part_000 lines 37-51): open, then the flock step. -/
def Lock.tryLock (l : Lock) (w : World) : StepRes :=
  match l.openFile w with
  | ⟨some e, l1, w1⟩ => ⟨some e, l1, w1⟩
  | ⟨none, l1, w1⟩ => Lock.tryLockPostOpen l1 w1

/-- (*Lock).Unlock (part_000 lines 63-69): nil if the descriptor sentinel is
still -1, otherwise close the descriptor (which also drops the flock). -/
def Lock.unlock (l : Lock) (w : World) : StepRes :=
  if l.fd = -1 then ⟨none, l, w⟩
  else
    match sysClose w l.fd.toNat with
    | Except.error e => ⟨some (GoError.errno e), l, w⟩
    | Except.ok w1 => ⟨none, l, w1⟩

/-- How the race inside LockWithContext (part_000 lines 92-108) resolves.
`resultFirst`: the worker's flock returns and its result is in the buffered
channel before the caller sees the cancellation signal, so the caller receives
that result.  `ctxFirst`: the cancellation signal fires while flock is still
blocking, so the caller returns `ctx.Err()`; when the worker's flock finally
returns, the closed Done channel AND the empty size-1 result buffer are both
ready in the worker's select, and Go picks one of the two ready cases
pseudo-randomly: `workerSends = false` picks the Done case (the cleanup
branch: Flock(LOCK_UN) then Close), `workerSends = true` picks the send,
depositing the result in a buffer nobody will ever read and skipping
cleanup. -/
inductive RaceOutcome where
  | resultFirst
  | ctxFirst (workerSends : Bool)
deriving DecidableEq, Repr

/-- Observable outcome of one LockWithContext call: what the caller gets back,
and — after the worker has finished as well — whether the attempt left the OS
lock held and the descriptor open. -/
structure CtxRun where
  callerErr : Option GoError
  lockHeld : Bool
  fdOpen : Bool
deriving DecidableEq, Repr

/-- (*Lock).LockWithContext (part_000 lines 88-109).  `openRes` is the outcome
of the open step (none = success), `flockRes` the eventual outcome of the
worker's blocking flock (none = acquired), `cancelErr` the value of
`ctx.Err()` once the context is done (context.Canceled or
context.DeadlineExceeded), and `ro` how the race resolves. -/
def lockWithContext (openRes : Option Errno) (flockRes : Option Errno)
    (cancelErr : GoError) (ro : RaceOutcome) : CtxRun :=
  match openRes with
  | some e => ⟨some (GoError.errno e), false, false⟩
  | none =>
      match ro with
      | RaceOutcome.resultFirst =>
          ⟨flockRes.map GoError.errno, flockRes.isNone, true⟩
      | RaceOutcome.ctxFirst workerSends =>
          if workerSends then ⟨some cancelErr, flockRes.isNone, true⟩
          else ⟨some cancelErr, false, false⟩

/-- (*Lock).LockWithTimeout (part_000 lines 73-85): derive a deadline context
from `timeout` (context.WithTimeout(Background, timeout); for timeout ≤ 0 the
context is born already expired), run LockWithContext, and translate the
result into ErrTimeout when `err != nil && ctx.Err() == err`.  Since the
context is derived from Background, `ctx.Err()` can only be
DeadlineExceeded during the call (the deferred cancel runs after the check),
and a syscall errno is never identical to DeadlineExceeded, so the guard holds
exactly when LockWithContext returned the context's DeadlineExceeded. -/
def lockWithTimeout (openRes : Option Errno) (flockRes : Option Errno)
    (timeout : Int) (ro : RaceOutcome) : CtxRun :=
  let r := lockWithContext openRes flockRes GoError.deadlineExceeded ro
  match r.callerErr with
  | some e =>
      if e = GoError.deadlineExceeded then { r with callerErr := some GoError.errTimeout }
      else r
  | none => r

/-- WAIT constants and the INFINITE sentinel of the Windows API. -/
def INFINITE : Nat := 4294967295

/-- fslock_windows.go lines 80-83: millis starts as uint32(windows.INFINITE)
and is reassigned to uint32(timeout.Nanoseconds() / 1000000) when
timeout >= 0.  A time.Duration is an int64 count of nanoseconds;
Nanoseconds() is the identity on it; Go's int64 division truncates toward
zero (for a nonnegative dividend this is ordinary floor division); the uint32
conversion keeps the low 32 bits, i.e. reduces modulo 2^32. -/
def winMillis (timeout : Int) : Nat :=
  if 0 ≤ timeout then ((timeout / 1000000).toNat) % 4294967296 else INFINITE

/-- Outcome of the windows.LockFileEx call (fslock_windows.go line 90):
granted synchronously (err == nil), pending (ERROR_IO_PENDING, the wait on the
event decides), or failed with some other OS error. -/
inductive LockFileExRes where
  | granted
  | pending
  | failed (e : Errno)
deriving DecidableEq, Repr

/-- Fault-injection environment for one Windows LockWithTimeout call:
outcomes of UTF16PtrFromString, CreateFile, CreateEvent (inside
newOverlapped), and LockFileEx. -/
structure WinEnv where
  utf16Err : Option Errno := none
  createErr : Option Errno := none
  eventErr : Option Errno := none
  lockRes : LockFileExRes := LockFileExRes.granted
deriving DecidableEq, Repr

/-- (*Lock).LockWithTimeout on Windows (fslock_windows.go lines 53-111).
`wait millis` tells whether WaitForSingleObject(ol.HEvent, millis) returns
WAIT_OBJECT_0 within `millis` milliseconds (false = WAIT_TIMEOUT; the
WAIT_FAILED branch, which passes the wait's own error through, is not
exercised by any claim).  The order mirrors the source: name conversion,
CreateFile, millis computation, event creation, LockFileEx, then the wait. -/
def winLockWithTimeout (env : WinEnv) (wait : Nat → Bool) (timeout : Int) :
    Option GoError :=
  match env.utf16Err with
  | some e => some (GoError.errno e)
  | none =>
      match env.createErr with
      | some e => some (GoError.errno e)
      | none =>
          let millis := winMillis timeout
          match env.eventErr with
          | some e => some (GoError.errno e)
          | none =>
              match env.lockRes with
              | LockFileExRes.granted => none
              | LockFileExRes.failed e => some (GoError.errno e)
              | LockFileExRes.pending =>
                  if wait millis then none else some GoError.errTimeout

/-- (*Lock).TryLock on Windows (fslock_windows.go lines 32-39): a zero
timeout, with ErrTimeout rebranded as ErrLocked. -/
def winTryLock (env : WinEnv) (wait : Nat → Bool) : Option GoError :=
  match winLockWithTimeout env wait 0 with
  | some GoError.errTimeout => some GoError.errLocked
  | r => r

/-- (*Lock).Lock on Windows (fslock_windows.go lines 42-44): timeout -1. -/
def winLock (env : WinEnv) (wait : Nat → Bool) : Option GoError :=
  winLockWithTimeout env wait (-1)

/-- The Windows Lock struct (fslock_windows.go lines 20-23): New leaves the
handle field at its zero value. -/
structure WinLock where
  filename : String
  handle : Nat
deriving DecidableEq, Repr

def WinLock.new (filename : String) : WinLock := ⟨filename, 0⟩

/-- windows.Close / CloseHandle: succeeds on a currently valid handle of the
process, fails with ERROR_INVALID_HANDLE otherwise.  CreateFile never yields
the zero handle, so a never-opened Lock's handle (0) is never in the valid
set. -/
def closeHandle (validHandles : List Nat) (h : Nat) : Option GoError :=
  if h ∈ validHandles then none else some GoError.errInvalidHandle

/-- (*Lock).Unlock on Windows (fslock_windows.go lines 47-49): unconditionally
windows.Close(l.handle) — there is no "never opened" guard. -/
def WinLock.unlock (l : WinLock) (validHandles : List Nat) : Option GoError :=
  closeHandle validHandles l.handle

/-- Model of the backing file at the lock's path. -/
structure FileState where
  present : Bool
  contents : List Nat
  mode : Nat
deriving DecidableEq, Repr

/-- Access rights requested when opening the backing file. -/
structure Access where
  canRead : Bool
  canWrite : Bool
deriving DecidableEq, Repr

/-- POSIX-family opener effect (part_000 line 54):
syscall.Open(path, O_CREAT|O_RDWR, 0600).  O_CREAT without O_TRUNC or O_EXCL
creates an empty file with mode 0600 when absent and leaves an existing file
untouched; O_RDWR requests read and write access. -/
def unixOpenFile (fs : FileState) : FileState × Access :=
  (if fs.present then fs else ⟨true, [], 384⟩, ⟨true, true⟩)

def GENERIC_READ : Nat := 2147483648
def GENERIC_WRITE : Nat := 1073741824

/-- The dwDesiredAccess argument of the CreateFile call
(fslock_windows.go line 64): windows.GENERIC_READ only. -/
def winDesiredAccess : Nat := GENERIC_READ

/-- Windows opener effect (fslock_windows.go lines 62-69): CreateFile with
OPEN_ALWAYS creates the file when absent (with the process default security
descriptor, modelled by `defaultMode`) and opens an existing one without
truncation; the requested access is exactly `winDesiredAccess`. -/
def winCreateFile (fs : FileState) (defaultMode : Nat) : FileState × Access :=
  (if fs.present then fs else ⟨true, [], defaultMode⟩,
   ⟨(winDesiredAccess &&& GENERIC_READ) != 0, (winDesiredAccess &&& GENERIC_WRITE) != 0⟩)

/-- Concrete run for claim C8: Lock, Unlock, Lock on one instance in an
uncontended, fault-free world. -/
def c8s1 : StepRes := Lock.lock (Lock.new ("a")) World.init

def c8s2 : StepRes := Lock.unlock c8s1.lock c8s1.world

def c8s3 : StepRes := Lock.lock c8s2.lock c8s2.world

/-- Concrete run for claim C7: the same successful Lock, Unlock, Lock lifetime
(kept separate from the C8 run so each claim stands on its own). -/
def c7s1 : StepRes := Lock.lock (Lock.new ("b")) World.init

def c7s2 : StepRes := Lock.unlock c7s1.lock c7s1.world

def c7s3 : StepRes := Lock.lock c7s2.lock c7s2.world

/-- Helper: on a lock held by another process, TryLock reports ErrLocked and
the descriptor opened for the attempt is closed again (the set of open
descriptors is restored). -/
theorem tryLock_contended_spec (l : Lock) (w : World)
    (hopen : w.openErr = none) (hheld : w.heldElsewhere = true) :
    (Lock.tryLock l w).err = some GoError.errLocked
  ∧ (Lock.tryLock l w).world.openFds = w.openFds := by
  simp [Lock.tryLock, Lock.tryLockPostOpen, Lock.openFile, sysOpen, hopen, sysFlockNB,
    contendedFor, hheld, sysClose, List.erase_cons_head]

/-- Helper: when the cancellation signal wins the race, the duration entry
point reports ErrTimeout (the context cause is its deadline). -/
theorem lwt_ctxFirst_errTimeout (flockRes : Option Errno) (t : Int) (b : Bool) :
    (lockWithTimeout none flockRes t (RaceOutcome.ctxFirst b)).callerErr
      = some GoError.errTimeout := by
  cases b <;> simp [lockWithTimeout, lockWithContext]

/-- Helper: LockWithTimeout returns ErrTimeout exactly when the open step
succeeded and the deadline fired before the worker's result arrived. -/
theorem lwt_errTimeout_iff (openRes flockRes : Option Errno) (t : Int) (ro : RaceOutcome) :
    ((lockWithTimeout openRes flockRes t ro).callerErr = some GoError.errTimeout)
      ↔ (openRes = none ∧ ∃ b, ro = RaceOutcome.ctxFirst b) := by
  rcases openRes with _ | e
  · rcases ro with _ | b
    · rcases flockRes with _ | e2 <;> simp [lockWithTimeout, lockWithContext]
    · cases b <;> simp [lockWithTimeout, lockWithContext]
  · simp [lockWithTimeout, lockWithContext]

/-- Helper: an error from the open step passes through LockWithTimeout
unchanged. -/
theorem lwt_open_error (e : Errno) (flockRes : Option Errno) (t : Int) (ro : RaceOutcome) :
    (lockWithTimeout (some e) flockRes t ro).callerErr = some (GoError.errno e) := by
  simp [lockWithTimeout, lockWithContext]

/-- Helper: when the worker's result wins the race, LockWithTimeout returns
the flock outcome unchanged (an OS error stays an OS error). -/
theorem lwt_resultFirst (flockRes : Option Errno) (t : Int) :
    (lockWithTimeout none flockRes t RaceOutcome.resultFirst).callerErr
      = flockRes.map GoError.errno := by
  rcases flockRes with _ | e <;> simp [lockWithTimeout, lockWithContext]

/-- Helper: the Windows LockWithTimeout returns ErrTimeout exactly when every
setup step succeeded, LockFileEx went pending, and the bounded wait on the
event elapsed without the lock being granted. -/
theorem winLWT_errTimeout_iff (env : WinEnv) (wait : Nat → Bool) (t : Int) :
    winLockWithTimeout env wait t = some GoError.errTimeout
      ↔ env.utf16Err = none ∧ env.createErr = none ∧ env.eventErr = none
        ∧ env.lockRes = LockFileExRes.pending ∧ wait (winMillis t) = false := by
  obtain ⟨u, c, ev, lr⟩ := env
  rcases u with _ | e1 <;> rcases c with _ | e2 <;> rcases ev with _ | e3 <;>
    rcases lr with _ | _ | e4 <;>
      simp [winLockWithTimeout]

/-- Helper: a LockFileEx failure other than ERROR_IO_PENDING passes through
the Windows LockWithTimeout unchanged. -/
theorem winLWT_failed_passthrough (env : WinEnv) (wait : Nat → Bool) (t : Int) (e : Errno)
    (hu : env.utf16Err = none) (hc : env.createErr = none) (he : env.eventErr = none)
    (hl : env.lockRes = LockFileExRes.failed e) :
    winLockWithTimeout env wait t = some (GoError.errno e) := by
  simp [winLockWithTimeout, hu, hc, he, hl]

/-- Helper: a zero duration converts to a zero-millisecond wait. -/
theorem winMillis_zero : winMillis 0 = 0 := by decide

/-- Helper: the world returned by the close-or-keep step of TryLock's failure
path has the same opener-call count. -/
theorem sysClose_orKeep_openCalls (w : World) (fd : Nat) :
    (match sysClose w fd with
     | Except.ok wc => wc
     | Except.error _ => w).openCalls = w.openCalls := by
  unfold sysClose
  by_cases hm : fd ∈ w.openFds <;> simp [hm]

/-- Helper: setting close-on-exec does not invoke the opener. -/
theorem sysCloseOnExec_openCalls (w : World) (fd : Nat) :
    (sysCloseOnExec w fd).openCalls = w.openCalls := by
  unfold sysCloseOnExec
  by_cases hm : fd ∈ w.cloexec <;> simp [hm]

/-- Helper: a successful non-blocking flock does not invoke the opener. -/
theorem sysFlockNB_openCalls (w : World) (fd : Nat) (w2 : World)
    (h : sysFlockNB w fd = Except.ok w2) : w2.openCalls = w.openCalls := by
  unfold sysFlockNB at h
  by_cases hc : contendedFor w fd = true
  · rw [if_pos hc] at h; cases h
  · rw [if_neg hc] at h
    rcases hfe : w.flockErr with _ | e2 <;> rw [hfe] at h
    · injection h with h1; rw [← h1]
    · cases h

/-- Helper: everything TryLock does after the open step leaves the
opener-call count unchanged. -/
theorem tryLockPostOpen_openCalls (l1 : Lock) (w1 : World) :
    (Lock.tryLockPostOpen l1 w1).world.openCalls = w1.openCalls := by
  unfold Lock.tryLockPostOpen
  rcases hnb : sysFlockNB w1 l1.fd.toNat with e2 | w2
  · by_cases he : e2 = Errno.EWOULDBLOCK <;>
      simp [hnb, he, sysClose_orKeep_openCalls]
  · simp [hnb, sysCloseOnExec_openCalls, sysFlockNB_openCalls w1 l1.fd.toNat w2 hnb]

/-- C1: the claim says the worker of an abandoned LockWithContext attempt,
once its blocking flock returns successfully, always releases the OS lock and
closes the handle.  The caller does return the cancellation error immediately
(first components below), but the cleanup is not guaranteed: when the
cancellation fired first, the worker's select finds BOTH the closed Done
channel and the empty one-slot result buffer ready, and Go chooses between
ready select cases pseudo-randomly.  The `workerSends = true` schedule
deposits the late success into a buffer nobody will ever read and skips the
Flock(LOCK_UN)/Close cleanup, leaving the lock held and the descriptor open —
contradicting the claim and the code's own "Timed out, cleanup if necessary"
comment.  The `workerSends = false` schedule is the intended one and does
clean up. -/
theorem c1_worker_may_skip_cleanup :
    lockWithContext none none GoError.canceled (RaceOutcome.ctxFirst true)
      = ⟨some GoError.canceled, true, true⟩
  ∧ lockWithContext none none GoError.canceled (RaceOutcome.ctxFirst false)
      = ⟨some GoError.canceled, false, false⟩ := by decide

/-- C2 counterexample: the claim says LockWithTimeout(0) on a contended lock
returns ErrLocked like TryLock.  It does not: with the lock held elsewhere
the blocking flock cannot return at once, and the zero-duration context is
born already expired, so the cancellation branch is the only ready one and
the call returns ErrTimeout, while TryLock on the same contended world
returns ErrLocked — two different sentinels. -/
theorem c2_counterexample :
    (lockWithTimeout none none 0 (RaceOutcome.ctxFirst false)).callerErr
        = some GoError.errTimeout
  ∧ (Lock.tryLock (Lock.new ("f")) { heldElsewhere := true }).err = some GoError.errLocked
  ∧ GoError.errTimeout ≠ GoError.errLocked := by decide

/-- C2 (amended): on a contended lock, LockWithTimeout(0) returns ErrTimeout
on both platform families, and TryLock returns ErrLocked — on the Windows
family precisely by translating the ErrTimeout of LockWithTimeout(0). -/
theorem c2_amended_zero_timeout (flockRes : Option Errno) (b : Bool) (l : Lock) (w : World)
    (env : WinEnv) (wait : Nat → Bool)
    (hopen : w.openErr = none) (hheld : w.heldElsewhere = true)
    (hu : env.utf16Err = none) (hc : env.createErr = none) (he : env.eventErr = none)
    (hl : env.lockRes = LockFileExRes.pending) (hw : wait 0 = false) :
    (lockWithTimeout none flockRes 0 (RaceOutcome.ctxFirst b)).callerErr
        = some GoError.errTimeout
  ∧ (Lock.tryLock l w).err = some GoError.errLocked
  ∧ winLockWithTimeout env wait 0 = some GoError.errTimeout
  ∧ winTryLock env wait = some GoError.errLocked := by
  have h3 : winLockWithTimeout env wait 0 = some GoError.errTimeout := by
    refine (winLWT_errTimeout_iff env wait 0).mpr ⟨hu, hc, he, hl, ?_⟩
    rw [winMillis_zero]; exact hw
  refine ⟨lwt_ctxFirst_errTimeout flockRes 0 b, (tryLock_contended_spec l w hopen hheld).1,
    h3, ?_⟩
  simp [winTryLock, h3]

theorem c2_amended_zero_timeout_witness :
    (lockWithTimeout none none 0 (RaceOutcome.ctxFirst true)).callerErr
        = some GoError.errTimeout
  ∧ (Lock.tryLock (Lock.new ("g")) { heldElsewhere := true }).err = some GoError.errLocked
  ∧ winLockWithTimeout { lockRes := LockFileExRes.pending } (fun _ => false) 0
        = some GoError.errTimeout
  ∧ winTryLock { lockRes := LockFileExRes.pending } (fun _ => false)
        = some GoError.errLocked :=
  c2_amended_zero_timeout none true (Lock.new ("g")) { heldElsewhere := true }
    { lockRes := LockFileExRes.pending } (fun _ => false) rfl rfl rfl rfl rfl rfl rfl

/-- C3 counterexample: the claim says Unlock on a never-opened Lock returns
success on every platform family.  On the Windows family Unlock calls
windows.Close on the stored handle unconditionally; for a never-opened Lock
that handle is the zero value, which is not a valid open handle, so the call
returns the invalid-handle error instead of success. -/
theorem c3_counterexample :
    WinLock.unlock (WinLock.new ("w")) [] = some GoError.errInvalidHandle
  ∧ WinLock.unlock (WinLock.new ("w")) [] ≠ none := by decide

/-- C3 (amended): on the blocking-syscall family Unlock on a never-opened
Lock (descriptor sentinel -1) returns success and leaves the world untouched;
on the asynchronous-event family Unlock closes the stored zero handle and
returns the OS invalid-handle error. -/
theorem c3_amended_unlock (s : String) (w : World) (valid : List Nat) (h0 : 0 ∉ valid) :
    Lock.unlock (Lock.new s) w = ⟨none, Lock.new s, w⟩
  ∧ WinLock.unlock (WinLock.new s) valid = some GoError.errInvalidHandle := by
  constructor
  · simp [Lock.unlock, Lock.new]
  · simp [WinLock.unlock, WinLock.new, closeHandle, h0]

theorem c3_amended_unlock_witness :
    Lock.unlock (Lock.new ("q")) World.init = ⟨none, Lock.new ("q"), World.init⟩
  ∧ WinLock.unlock (WinLock.new ("q")) [7] = some GoError.errInvalidHandle :=
  c3_amended_unlock ("q") World.init [7] (by decide)

/-- C4: for a positive duration, LockWithTimeout returns ErrTimeout exactly
when the deadline fired before the acquisition resolved (POSIX family: the
open step succeeded and the context won the race; Windows family: setup
succeeded, LockFileEx went pending and the bounded wait elapsed), while an OS
error from the open or lock step is returned as-is on both families.  An
externally supplied cancellation cannot occur inside LockWithTimeout, whose
context derives from Background with only a deadline attached, so the
`ctx.Err() == err` guard fires exactly for the deadline cause. -/
theorem c4_timeout_translation (openRes flockRes : Option Errno) (t : Int)
    (ro : RaceOutcome) (env : WinEnv) (wait : Nat → Bool) (ht : 0 < t) :
    ((lockWithTimeout openRes flockRes t ro).callerErr = some GoError.errTimeout
       ↔ openRes = none ∧ ∃ b, ro = RaceOutcome.ctxFirst b)
  ∧ (∀ e : Errno, openRes = some e →
       (lockWithTimeout openRes flockRes t ro).callerErr = some (GoError.errno e))
  ∧ (openRes = none →
       (lockWithTimeout openRes flockRes t RaceOutcome.resultFirst).callerErr
         = flockRes.map GoError.errno)
  ∧ (winLockWithTimeout env wait t = some GoError.errTimeout
       ↔ env.utf16Err = none ∧ env.createErr = none ∧ env.eventErr = none
         ∧ env.lockRes = LockFileExRes.pending ∧ wait (winMillis t) = false)
  ∧ (∀ e : Errno, env.utf16Err = none → env.createErr = none → env.eventErr = none →
       env.lockRes = LockFileExRes.failed e →
       winLockWithTimeout env wait t = some (GoError.errno e)) := by
  refine ⟨lwt_errTimeout_iff openRes flockRes t ro, ?_, ?_,
    winLWT_errTimeout_iff env wait t, ?_⟩
  · intro e he; subst he; exact lwt_open_error e flockRes t ro
  · intro hn; subst hn; exact lwt_resultFirst flockRes t
  · intro e hu hc hev hl; exact winLWT_failed_passthrough env wait t e hu hc hev hl

theorem c4_timeout_translation_witness :
    (lockWithTimeout none none 1 (RaceOutcome.ctxFirst false)).callerErr
      = some GoError.errTimeout :=
  ((c4_timeout_translation none none 1 (RaceOutcome.ctxFirst false)
      { lockRes := LockFileExRes.pending } (fun _ => false) (by decide)).1).mpr
    ⟨rfl, ⟨false, rfl⟩⟩

/-- C5: TryLock on a lock held by another process returns ErrLocked, and the
descriptor opened for the attempt is closed again before TryLock returns: the
set of open descriptors is exactly what it was before the call. -/
theorem c5_trylock_contended (l : Lock) (w : World)
    (hopen : w.openErr = none) (hheld : w.heldElsewhere = true) :
    (Lock.tryLock l w).err = some GoError.errLocked
  ∧ (Lock.tryLock l w).world.openFds = w.openFds :=
  tryLock_contended_spec l w hopen hheld

theorem c5_trylock_contended_witness :
    (Lock.tryLock (Lock.new ("h")) { heldElsewhere := true }).err = some GoError.errLocked
  ∧ (Lock.tryLock (Lock.new ("h")) { heldElsewhere := true }).world.openFds = [] :=
  c5_trylock_contended (Lock.new ("h")) { heldElsewhere := true } rfl rfl

/-- C6 counterexample: the claim says the opener opens the backing file for
read/write access on every path.  The Windows opener requests GENERIC_READ
only, so the access it obtains has no write permission. -/
theorem c6_counterexample :
    (winCreateFile ⟨false, [], 0⟩ 438).2.canWrite = false
  ∧ (winCreateFile ⟨false, [], 0⟩ 438).2.canWrite ≠ true := by decide

/-- C6 (amended): both openers create the backing file when absent and never
truncate or alter the contents of an existing one.  The POSIX-family opener
creates it with owner-only read/write permission (0600) and opens it for
read and write; the Windows opener creates it with the process default
security descriptor and opens it for read access only. -/
theorem c6_amended_opener (fs : FileState) (m : Nat) :
    (fs.present = true → (unixOpenFile fs).1 = fs ∧ (winCreateFile fs m).1 = fs)
  ∧ (fs.present = false →
        (unixOpenFile fs).1 = ⟨true, [], 384⟩ ∧ (winCreateFile fs m).1 = ⟨true, [], m⟩)
  ∧ (unixOpenFile fs).2 = ⟨true, true⟩
  ∧ (winCreateFile fs m).2.canRead = true
  ∧ (winCreateFile fs m).2.canWrite = false := by
  refine ⟨?_, ?_, rfl, rfl, rfl⟩
  · intro hp; constructor <;> simp [unixOpenFile, winCreateFile, hp]
  · intro hp; constructor <;> simp [unixOpenFile, winCreateFile, hp]

theorem c6_amended_opener_witness :
    (unixOpenFile ⟨true, [7], 420⟩).1 = (⟨true, [7], 420⟩ : FileState)
  ∧ (winCreateFile ⟨true, [7], 420⟩ 438).1 = (⟨true, [7], 420⟩ : FileState) :=
  (c6_amended_opener ⟨true, [7], 420⟩ 438).1 rfl

/-- C7 counterexample: the claim says at most one resource handle is ever
created over a Lock instance's whole lifetime.  The successful
Lock → Unlock → Lock lifetime below invokes the opener twice and allocates
two distinct descriptors (3 and then 4) on one instance, because every
acquisition entry point re-opens the file. -/
theorem c7_counterexample :
    c7s3.err = none ∧ c7s3.world.openCalls = 2
  ∧ c7s3.world.nextFd = World.init.nextFd + 2 := by decide

/-- C7 (amended): the opener is called exactly once per acquisition attempt —
each Lock or TryLock call increments the opener-call count by exactly one,
whatever the world — but across a lifetime each new attempt re-opens, so a
Lock instance may create several handles, one per attempt. -/
theorem c7_amended_open_per_attempt (l : Lock) (w : World) :
    (Lock.lock l w).world.openCalls = w.openCalls + 1
  ∧ (Lock.tryLock l w).world.openCalls = w.openCalls + 1 := by
  constructor
  · rcases h : w.openErr with _ | e
    · rcases h2 : w.flockErr with _ | e2 <;>
        simp [Lock.lock, Lock.openFile, sysOpen, sysFlockEx, h, h2]
    · simp [Lock.lock, Lock.openFile, sysOpen, h]
  · rcases h : w.openErr with _ | e
    · simp [Lock.tryLock, Lock.openFile, sysOpen, h, tryLockPostOpen_openCalls]
    · simp [Lock.tryLock, Lock.openFile, sysOpen, h]

/-- C8: on an uncontended, fault-free path the sequence Lock, Unlock, Lock on
one instance succeeds at every step. -/
theorem c8_roundtrip : c8s1.err = none ∧ c8s2.err = none ∧ c8s3.err = none := by decide

/-- C9: a successful TryLock marks the freshly opened descriptor
close-on-exec and leaves it open; a TryLock that fails — because the lock is
held elsewhere, or because flock reports some other error — closes the
descriptor and never sets the flag. -/
theorem c9_trylock_cloexec (l : Lock) (w : World)
    (hopen : w.openErr = none) (hofd : w.nextFd ∉ w.openFds) (hcx : w.nextFd ∉ w.cloexec) :
    (w.heldElsewhere = false → w.flockHolder = none → w.flockErr = none →
        (Lock.tryLock l w).err = none
      ∧ w.nextFd ∈ (Lock.tryLock l w).world.cloexec
      ∧ w.nextFd ∈ (Lock.tryLock l w).world.openFds)
  ∧ (w.heldElsewhere = true →
        (Lock.tryLock l w).err = some GoError.errLocked
      ∧ w.nextFd ∉ (Lock.tryLock l w).world.cloexec
      ∧ w.nextFd ∉ (Lock.tryLock l w).world.openFds)
  ∧ (∀ e : Errno, w.heldElsewhere = false → w.flockHolder = none → w.flockErr = some e →
        e ≠ Errno.EWOULDBLOCK →
        (Lock.tryLock l w).err = some (GoError.errno e)
      ∧ w.nextFd ∉ (Lock.tryLock l w).world.cloexec
      ∧ w.nextFd ∉ (Lock.tryLock l w).world.openFds) := by
  refine ⟨?_, ?_, ?_⟩
  · intro h1 h2 h3
    simp [Lock.tryLock, Lock.openFile, sysOpen, hopen, Lock.tryLockPostOpen, sysFlockNB,
      contendedFor, h1, h2, h3, sysCloseOnExec, hcx, List.mem_cons]
  · intro h1
    simp [Lock.tryLock, Lock.openFile, sysOpen, hopen, Lock.tryLockPostOpen, sysFlockNB,
      contendedFor, h1, sysClose, List.erase_cons_head, List.mem_cons]
    exact ⟨fun hmem => hcx (List.mem_of_mem_erase hmem), hofd⟩
  · intro e h1 h2 h3 h4
    simp [Lock.tryLock, Lock.openFile, sysOpen, hopen, Lock.tryLockPostOpen, sysFlockNB,
      contendedFor, h1, h2, h3, h4, sysClose, List.erase_cons_head]
    exact ⟨fun hmem => hcx (List.mem_of_mem_erase hmem), hofd⟩

theorem c9_trylock_cloexec_witness :
    (Lock.tryLock (Lock.new ("k")) World.init).err = none
  ∧ World.init.nextFd ∈ (Lock.tryLock (Lock.new ("k")) World.init).world.cloexec
  ∧ World.init.nextFd ∈ (Lock.tryLock (Lock.new ("k")) World.init).world.openFds :=
  (c9_trylock_cloexec (Lock.new ("k")) World.init rfl (by decide) (by decide)).1 rfl rfl rfl

/-- C10: the Windows millisecond conversion is integer truncation of the
nanosecond count followed by reduction modulo 2^32 for every nonnegative
duration, so a duration of 2^32 milliseconds (about 49.7 days) wraps to a
zero wait and one of 2^32 - 1 milliseconds lands exactly on the INFINITE
sentinel, while every negative duration (such as the -1 used by Lock) keeps
the INFINITE unbounded wait. -/
theorem c10_millis_conversion :
    (∀ d : Int, 0 ≤ d → winMillis d = (d / 1000000).toNat % 4294967296)
  ∧ (∀ d : Int, d < 0 → winMillis d = INFINITE)
  ∧ winMillis (4294967296 * 1000000) = 0
  ∧ winMillis (4294967295 * 1000000) = INFINITE
  ∧ winMillis (-1) = INFINITE := by
  refine ⟨?_, ?_, by decide, by decide, by decide⟩
  · intro d hd; simp [winMillis, hd]
  · intro d hd; simp [winMillis, not_le.mpr hd]

theorem c10_millis_conversion_witness :
    winMillis 1500000 = ((1500000 : Int) / 1000000).toNat % 4294967296
  ∧ winMillis (-5) = INFINITE :=
  ⟨c10_millis_conversion.1 1500000 (by decide), c10_millis_conversion.2.1 (-5) (by decide)⟩

end Fslock
